import Mathlib

/-!
Verification of the WASM build monitor (`src/scripts/wasm-build-monitor.py`).

The Python program is embedded shallowly: the mutable fields of the
`BuildMonitor` class become a `MonitorState` record threaded explicitly,
the file system, the external compiler process, the wall clock and the
success or failure of file writes become an explicit environment, and
Python exceptions become `Except` values.  Each definition mirrors the
corresponding Python method; doc comments cite source line ranges.
-/

namespace WasmMonitor

/-- Contents of a file, as a byte sequence (what `open(path, "rb")` reads). -/
abbrev Bytes := List Nat

/-- Result of attempting to open a file for reading: either its bytes, a
`FileNotFoundError`, or some other `OSError` such as a `PermissionError`.
The Python code distinguishes these: `calculate_file_hash` (lines 138-147)
catches only `FileNotFoundError`. -/
inductive OpenResult where
  | ok (content : Bytes)
  | notFound
  | permissionDenied
deriving DecidableEq, Repr

/-- The file system at one instant: what opening each path yields. -/
abbrev FileSystem := String → OpenResult

/-- The documented behaviour of `hashlib.md5(...).hexdigest()` from the Python
standard library (external to this repository): the hex digest of any byte
sequence is a 32-character string.  The digest function itself stays abstract;
theorems that need it take this fact as a hypothesis. -/
def Md5Spec (hash : Bytes → String) : Prop :=
  ∀ b : Bytes, (hash b).length = 32

/-- `BuildMonitor.calculate_file_hash` (lines 138-147): stream the file's bytes
into an MD5 digest; `except FileNotFoundError: return ""`.  Only the
file-not-found case is caught, so any other opening error (for example a
`PermissionError`) propagates to the caller, modelled by `Except.error`. -/
def calculate_file_hash (hash : Bytes → String) (fs : FileSystem)
    (filepath : String) : Except String String :=
  match fs filepath with
  | .ok content => .ok (hash content)
  | .notFound => .ok ""
  | .permissionDenied => .error "PermissionError"

/-- Lookup in a Python dict modelled as an association list:
`d.get(k, dflt)`. -/
def dictGet (d : List (String × String)) (k dflt : String) : String :=
  match d with
  | [] => dflt
  | q :: rest => if q.1 = k then q.2 else dictGet rest k dflt

/-- Assignment in a Python dict modelled as an association list:
`d[k] = v` (replaces an existing binding, otherwise appends). -/
def dictSet (d : List (String × String)) (k v : String) :
    List (String × String) :=
  match d with
  | [] => [(k, v)]
  | q :: rest => if q.1 = k then (k, v) :: rest else q :: dictSet rest k v

/-- The `self.stats` dictionary of `BuildMonitor.__init__` (lines 83-89). -/
structure Stats where
  total_builds : Nat
  successful_builds : Nat
  failed_builds : Nat
  total_build_time : ℚ
  last_build : Option String
deriving DecidableEq, Repr

/-- The `BuildStats` dataclass (lines 53-71): the record of one build. -/
structure BuildStats where
  start_time : ℚ
  end_time : ℚ
  success : Bool
  mode : String
  files_changed : List String
  output_size_js : Nat := 0
  output_size_wasm : Nat := 0
  error_message : String := ""
  warnings : Option (List String) := none
deriving DecidableEq, Repr

/-- `BuildStats.duration` (lines 66-68): `end_time - start_time`. -/
def BuildStats.duration (b : BuildStats) : ℚ :=
  b.end_time - b.start_time

/-- The mutable state of a `BuildMonitor` instance (lines 76-95), together
with the two files the persister writes (`none` until first written):
the hash-cache file (`file_hashes.json`) and the history file
(`build_history.json`). -/
structure MonitorState where
  file_hashes : List (String × String)
  build_history : List BuildStats
  is_building : Bool
  stats : Stats
  cacheFile : Option (List (String × String))
  historyFile : Option (List BuildStats)
deriving DecidableEq, Repr

/-- Fresh statistics, as initialised in `__init__` (lines 83-89). -/
def initialStats : Stats :=
  { total_builds := 0, successful_builds := 0, failed_builds := 0,
    total_build_time := 0, last_build := none }

/-- A freshly constructed monitor with no pre-existing cache file
(lines 76-95). -/
def initialState : MonitorState :=
  { file_hashes := [], build_history := [], is_building := false,
    stats := initialStats, cacheFile := none, historyFile := none }

/-- `BuildMonitor.has_file_changed` (lines 149-157): compute the current
digest, compare with the cached one (default `""`), store and report changed
when they differ.  An exception from `calculate_file_hash` propagates. -/
def has_file_changed (hash : Bytes → String) (fs : FileSystem)
    (s : MonitorState) (filepath : String) :
    Except String (Bool × MonitorState) :=
  match calculate_file_hash hash fs filepath with
  | .error e => .error e
  | .ok current_hash =>
    let old_hash := dictGet s.file_hashes filepath ""
    if current_hash ≠ old_hash then
      .ok (true,
        { s with file_hashes := dictSet s.file_hashes filepath current_hash })
    else
      .ok (false, s)

/-- `BuildMonitor.update_stats` (lines 313-321): bump the counters, add the
duration, stamp `last_build`.  The trailing success-rate computation only
logs. -/
def update_stats (now : String) (st : Stats) (b : BuildStats) : Stats :=
  { total_builds := st.total_builds + 1,
    successful_builds := st.successful_builds + (if b.success then 1 else 0),
    failed_builds := st.failed_builds + (if b.success then 0 else 1),
    total_build_time := st.total_build_time + b.duration,
    last_build := some now }

/-- Appending to a `collections.deque` with `maxlen` (line 80:
`deque(maxlen=100)`): the oldest entries are evicted from the left once the
bound is exceeded. -/
def dequeAppend (maxlen : Nat) (xs : List BuildStats) (x : BuildStats) :
    List BuildStats :=
  let ys := xs ++ [x]
  if maxlen < ys.length then ys.drop (ys.length - maxlen) else ys

/-- `BuildMonitor.save_cache` (lines 333-340): write `file_hashes` to the
cache file; the whole body is wrapped in `try/except Exception`, so a failed
write (modelled by `writeOk = false`) is swallowed and leaves the previously
persisted file as it was. -/
def save_cache (writeOk : Bool) (s : MonitorState) : MonitorState :=
  if writeOk then { s with cacheFile := some s.file_hashes } else s

/-- `BuildMonitor.save_build_history` (lines 353-361): write the history
deque to the history file; wrapped in `try/except Exception`, so a failed
write is swallowed. -/
def save_build_history (writeOk : Bool) (s : MonitorState) : MonitorState :=
  if writeOk then { s with historyFile := some s.build_history } else s

/-- Outcome of the `subprocess.run` call for the compiler (lines 225-231,
together with the steps before it inside the `try` block): either the child
process completed with an exit code and captured stdout and stderr, or one of
those steps raised an exception whose `str` is the given message. -/
inductive RunOutcome where
  | completed (returncode : Int) (stdout stderr : String)
  | raised (msg : String)
deriving DecidableEq, Repr

/-- The environment one call to `BuildMonitor.build` runs in: whether
`check_emscripten` (lines 175-194) reports the toolchain available, how the
compiler child process behaves, the sizes of the two output artifacts when
they exist (`none` models a missing file, lines 239-245), whether the two
persistence writes succeed, the two readings of `time.time()` (lines 204 and
269), and the `datetime.now().isoformat()` stamp (line 321). -/
structure BuildEnv where
  emccAvailable : Bool
  runOutcome : RunOutcome
  jsSize : Option Nat
  wasmSize : Option Nat
  cacheWriteOk : Bool
  historyWriteOk : Bool
  startTime : ℚ
  endTime : ℚ
  now : String
deriving DecidableEq, Repr

/-- Python `str.lower()`, applied character by character. -/
def pyLower (s : String) : String :=
  (s.data.map Char.toLower).asString

/-- Splitting a character list at every occurrence of the separator `c`,
keeping empty pieces: the semantics of Python `str.split(sep)` for a
one-character separator. -/
def splitCharAux (c : Char) : List Char → List (List Char)
  | [] => [[]]
  | a :: rest =>
    match splitCharAux c rest with
    | [] => [[]]
    | g :: gs => if a = c then [] :: g :: gs else (a :: g) :: gs

/-- Python `s.split('\n')` (line 257). -/
def pySplitLines (s : String) : List String :=
  (splitCharAux (Char.ofNat 10) s.data).map List.asString

/-- Whether `needle` occurs as a contiguous run inside the list. -/
def containsSeq (needle : List Char) : List Char → Bool
  | [] => needle.isEmpty
  | a :: rest => needle.isPrefixOf (a :: rest) || containsSeq needle rest

/-- Python `'warning' in line.lower()` (line 258): does the line contain the
substring `"warning"`, case-insensitively? -/
def containsWarning (line : String) : Bool :=
  containsSeq "warning".data (pyLower line).data

/-- The `with self.build_lock:` prologue of `BuildMonitor.build`
(lines 198-202): under the lock, return the skip signal `None` if a build is
already in progress, otherwise set `is_building`. -/
def buildPrologue (s : MonitorState) : Option MonitorState :=
  if s.is_building then none else some { s with is_building := true }

/-- The warnings-collection step of `BuildMonitor.build` (lines 256-261):
`if result.stdout:` then keep the stdout lines containing a warning marker,
and only when that list is non-empty store it in the record (so a record with
no warning lines keeps `warnings = None`). -/
def attachWarnings (stdout : String) (b : BuildStats) : BuildStats :=
  if stdout ≠ "" then
    let ws := (pySplitLines stdout).filter containsWarning
    if ws ≠ [] then { b with warnings := some ws } else b
  else b

/-- The `BuildStats` record one non-skipped call produces, following the
`try/except` of `BuildMonitor.build` (lines 204-269).  The record is created
with `end_time = 0` and `success = False` (lines 205-211).  The `try` block
raises `RuntimeError("Emscripten not available")` if the toolchain probe
fails (lines 217-218), otherwise runs the compiler: on exit code 0 it marks
success and measures artifact sizes, 0 for a missing artifact (lines
234-248), otherwise stores the captured stderr verbatim (lines 249-253);
in both completed cases it collects warnings (lines 256-261).
`except Exception` (lines 263-266) stores the exception message.  The
`finally` block stamps `end_time` (line 269). -/
def buildRecord (env : BuildEnv) (mode : String)
    (changed_files : Option (List String)) : BuildStats :=
  let b0 : BuildStats :=
    { start_time := env.startTime, end_time := 0, success := false,
      mode := mode, files_changed := changed_files.getD [] }
  let b1 : BuildStats :=
    if env.emccAvailable then
      match env.runOutcome with
      | .raised msg => { b0 with success := false, error_message := msg }
      | .completed rc stdout stderr =>
        attachWarnings stdout
          (if rc = 0 then
            { b0 with success := true,
                      output_size_js := env.jsSize.getD 0,
                      output_size_wasm := env.wasmSize.getD 0 }
          else
            { b0 with success := false, error_message := stderr })
    else
      { b0 with success := false, error_message := "Emscripten not available" }
  { b1 with end_time := env.endTime }

/-- The body of `BuildMonitor.build` entered with `is_building` already set:
produce the record, then run the `finally` block (lines 268-280): clear
`is_building`, update statistics, append to the bounded history, persist the
history and then the cache. -/
def buildBody (env : BuildEnv) (s : MonitorState) (mode : String)
    (changed_files : Option (List String)) : BuildStats × MonitorState :=
  let b2 := buildRecord env mode changed_files
  let s1 := { s with is_building := false }
  let s2 := { s1 with stats := update_stats env.now s1.stats b2 }
  let s3 := { s2 with build_history := dequeAppend 100 s2.build_history b2 }
  let s4 := save_build_history env.historyWriteOk s3
  let s5 := save_cache env.cacheWriteOk s4
  (b2, s5)

/-- `BuildMonitor.build` (lines 196-282): prologue under the lock, then the
full body; a skipped call returns `None` and touches nothing. -/
def build (env : BuildEnv) (s : MonitorState) (mode : String)
    (changed_files : Option (List String)) :
    Option BuildStats × MonitorState :=
  match buildPrologue s with
  | none => (none, s)
  | some s1 =>
    let r := buildBody env s1 mode changed_files
    (some r.1, r.2)

/-- One queued call to `build`, for reasoning about sequences of builds. -/
structure BuildInput where
  env : BuildEnv
  mode : String
  changed_files : Option (List String)

/-- Run a sequence of `build` calls, collecting the records of the
non-skipped ones. -/
def runBuilds : List BuildInput → MonitorState →
    List BuildStats × MonitorState
  | [], s => ([], s)
  | i :: rest, s =>
    let step := build i.env s i.mode i.changed_files
    let tail := runBuilds rest step.2
    (step.1.toList ++ tail.1, tail.2)

/-- One per-mode entry of the `build_modes` configuration (lines 116-121). -/
structure ModeConfig where
  optimization : String
  flags : List String
deriving DecidableEq, Repr

/-- The `paths` section of the configuration (lines 109-115). -/
structure ConfigPaths where
  workspace : String
  wasm_dir : String
  public_dir : String
  cache_dir : String
  logs_dir : String
deriving DecidableEq, Repr

/-- The `watch` section of the configuration (lines 122-125). -/
structure WatchSection where
  enabled : Bool
  debounce_ms : Nat
deriving DecidableEq, Repr

/-- The configuration document consumed by the monitor (section 6 of the
design: paths, per-mode build settings, watch settings). -/
structure Config where
  paths : ConfigPaths
  build_modes : List (String × ModeConfig)
  watch : WatchSection
deriving DecidableEq, Repr

/-- `BuildMonitor.get_default_config` (lines 106-126). -/
def get_default_config : Config :=
  { paths := { workspace := "/workspace", wasm_dir := "wasm",
               public_dir := "public", cache_dir := ".build-cache",
               logs_dir := "logs" },
    build_modes :=
      [("release",
        { optimization := "-O3", flags := ["-s MALLOC=emmalloc"] })],
    watch := { enabled := true, debounce_ms := 1000 } }

/-- The state of the configuration file on disk when `load_config` runs:
absent, present but unreadable (open raises, with the exception message),
present but not valid JSON (`json.load` raises), or valid. -/
inductive ConfigFileState where
  | missing
  | unreadable (errMsg : String)
  | malformed (errMsg : String)
  | valid (cfg : Config)
deriving DecidableEq, Repr

/-- `BuildMonitor.load_config` (lines 97-104): `try: open; json.load` with
`except FileNotFoundError` returning the defaults.  Only the missing-file
case is caught; an unreadable file or malformed JSON raises to the caller,
modelled by `Except.error`. -/
def load_config : ConfigFileState → Except String Config
  | .missing => .ok get_default_config
  | .unreadable e => .error e
  | .malformed e => .error e
  | .valid c => .ok c

/-- One filesystem notification delivered to `WASMEventHandler.on_modified`
(lines 387-401): the path, whether it is a directory event, and the value
`time.time()` returns when the event is handled. -/
structure FsEvent where
  src_path : String
  is_directory : Bool
  time : ℚ
deriving DecidableEq, Repr

/-- The mutable fields of `WASMEventHandler` (lines 380-385). -/
structure HandlerState where
  pending_changes : List String
  last_event_time : ℚ
deriving DecidableEq, Repr

/-- Python `s.endswith(sfx)`: suffix test on the character lists. -/
def pyEndsWith (s sfx : String) : Bool :=
  sfx.data.isSuffixOf s.data

/-- Python `event.src_path.endswith(('.cpp', '.h', '.hpp'))` (line 390). -/
def isSourcePath (p : String) : Bool :=
  pyEndsWith p ".cpp" || pyEndsWith p ".h" || pyEndsWith p ".hpp"

/-- Adding to a Python `set` modelled as a duplicate-free list:
`pending_changes.add(x)` (line 391). -/
def setAdd (xs : List String) (x : String) : List String :=
  if x ∈ xs then xs else xs ++ [x]

/-- `WASMEventHandler.on_modified` (lines 387-401): ignore directory events
and non-source paths; add the path to the pending set; if more than the
debounce window `W` elapsed since the last qualifying event, flush the
pending set as one build call (returned as `some` of the flushed set) and
clear it; finally record this event's time. -/
def on_modified (W : ℚ) (h : HandlerState) (e : FsEvent) :
    HandlerState × Option (List String) :=
  if e.is_directory then (h, none)
  else if isSourcePath e.src_path then
    let pending := setAdd h.pending_changes e.src_path
    if W < e.time - h.last_event_time then
      if pending ≠ [] then
        ({ pending_changes := [], last_event_time := e.time }, some pending)
      else
        ({ pending_changes := pending, last_event_time := e.time }, none)
    else
      ({ pending_changes := pending, last_event_time := e.time }, none)
  else (h, none)

/-- Feed a sequence of events through the handler, collecting the flushed
build calls in order. -/
def processEvents (W : ℚ) (h : HandlerState) :
    List FsEvent → HandlerState × List (List String)
  | [] => (h, [])
  | e :: es =>
    let step := on_modified W h e
    let rest := processEvents W step.1 es
    (rest.1, step.2.toList ++ rest.2)

/-- A qualifying event: a non-directory event on a recognised source path. -/
def Qualifying (e : FsEvent) : Prop :=
  e.is_directory = false ∧ isSourcePath e.src_path = true

/-- Successive events each within the debounce window of the previous one,
starting from last-event time `t0`. -/
def WithinBurst (W : ℚ) : ℚ → List FsEvent → Prop
  | _, [] => True
  | t0, e :: es => e.time - t0 ≤ W ∧ WithinBurst W e.time es

/-- Time of the last event of the list, or `t0` if there is none. -/
def lastTimeOf (t0 : ℚ) : List FsEvent → ℚ
  | [] => t0
  | e :: es => lastTimeOf e.time es

/-- A concrete digest function satisfying `Md5Spec`, used to instantiate
witnesses and counterexamples on explicit inputs. -/
def hw : Bytes → String := fun _ => "0123456789abcdef0123456789abcdef"

/-- A file system on which every path is missing. -/
def fsMissing : FileSystem := fun _ => .notFound

/-- A file system on which every path opens as an empty file. -/
def fsEmptyFile : FileSystem := fun _ => .ok []

/-- A file system on which opening any path raises a `PermissionError`. -/
def fsNoPerm : FileSystem := fun _ => .permissionDenied

/-- A monitor state whose hash cache already holds the digest of the (empty)
current contents of `a.cpp`. -/
def sTracked : MonitorState :=
  { initialState with
    file_hashes := [("a.cpp", "0123456789abcdef0123456789abcdef")] }

/-- A build environment in which the toolchain probe succeeds and the
compiler exits with code 1 producing no output on either stream. -/
def envFailSilent : BuildEnv :=
  { emccAvailable := true, runOutcome := .completed 1 "" "",
    jsSize := none, wasmSize := none, cacheWriteOk := true,
    historyWriteOk := true, startTime := 0, endTime := 0,
    now := "2024-01-01T00:00:00" }

/-- A build environment for witnesses: probe succeeds, compiler exits 0 with
one warning line on stdout. -/
def envOkWarn : BuildEnv :=
  { emccAvailable := true,
    runOutcome := .completed 0 "Warning: unused variable" "",
    jsSize := some 7, wasmSize := some 9, cacheWriteOk := true,
    historyWriteOk := true, startTime := 1, endTime := 2,
    now := "2024-01-01T00:00:00" }

/-! ## Helper lemmas -/

theorem dictGet_dictSet_self (d : List (String × String)) (k v dflt : String) :
    dictGet (dictSet d k v) k dflt = v := by
  induction d with
  | nil => simp [dictSet, dictGet]
  | cons q rest ih =>
    by_cases h : q.1 = k
    · simp [dictSet, dictGet, h]
    · simp [dictSet, dictGet, h, ih]

theorem save_cache_stats (w : Bool) (s : MonitorState) :
    (save_cache w s).stats = s.stats := by
  cases w <;> simp [save_cache]

theorem save_cache_is_building (w : Bool) (s : MonitorState) :
    (save_cache w s).is_building = s.is_building := by
  cases w <;> simp [save_cache]

theorem save_cache_build_history (w : Bool) (s : MonitorState) :
    (save_cache w s).build_history = s.build_history := by
  cases w <;> simp [save_cache]

theorem save_cache_file_hashes (w : Bool) (s : MonitorState) :
    (save_cache w s).file_hashes = s.file_hashes := by
  cases w <;> simp [save_cache]

theorem save_cache_historyFile (w : Bool) (s : MonitorState) :
    (save_cache w s).historyFile = s.historyFile := by
  cases w <;> simp [save_cache]

theorem save_build_history_stats (w : Bool) (s : MonitorState) :
    (save_build_history w s).stats = s.stats := by
  cases w <;> simp [save_build_history]

theorem save_build_history_is_building (w : Bool) (s : MonitorState) :
    (save_build_history w s).is_building = s.is_building := by
  cases w <;> simp [save_build_history]

theorem save_build_history_build_history (w : Bool) (s : MonitorState) :
    (save_build_history w s).build_history = s.build_history := by
  cases w <;> simp [save_build_history]

theorem save_build_history_file_hashes (w : Bool) (s : MonitorState) :
    (save_build_history w s).file_hashes = s.file_hashes := by
  cases w <;> simp [save_build_history]

theorem save_build_history_cacheFile (w : Bool) (s : MonitorState) :
    (save_build_history w s).cacheFile = s.cacheFile := by
  cases w <;> simp [save_build_history]

theorem build_of_not_building (env : BuildEnv) (s : MonitorState)
    (mode : String) (f : Option (List String)) (h : s.is_building = false) :
    build env s mode f
      = (some (buildRecord env mode f),
         (buildBody env { s with is_building := true } mode f).2) := by
  simp [build, buildPrologue, h, buildBody]

theorem buildBody_snd (env : BuildEnv) (s : MonitorState) (mode : String)
    (f : Option (List String)) :
    (buildBody env s mode f).2
      = save_cache env.cacheWriteOk (save_build_history env.historyWriteOk
          { s with is_building := false,
                   stats := update_stats env.now s.stats
                     (buildRecord env mode f),
                   build_history := dequeAppend 100 s.build_history
                     (buildRecord env mode f) }) := rfl

/-! ## C1: single-flight execution -/

/-- C1.  Single-flight build execution: from a state with no build in
progress, the first call's lock prologue sets `is_building`; a second call
issued in that window (any environment, mode, and file batch) returns the
skip signal `None` and returns the state exactly as it found it (same
statistics, history, hash cache, and `is_building` still set); the first
call produces a record, and the two calls together yield exactly one
`BuildStats` record. -/
theorem single_flight_skip_second_call (env1 env2 : BuildEnv)
    (s : MonitorState) (m1 m2 : String) (f1 f2 : Option (List String))
    (h : s.is_building = false) :
    buildPrologue s = some { s with is_building := true }
    ∧ build env2 { s with is_building := true } m2 f2
        = (none, { s with is_building := true })
    ∧ ((build env2 { s with is_building := true } m2 f2).2).stats = s.stats
    ∧ ((build env2 { s with is_building := true } m2 f2).2).build_history
        = s.build_history
    ∧ ((build env2 { s with is_building := true } m2 f2).2).file_hashes
        = s.file_hashes
    ∧ ((build env2 { s with is_building := true } m2 f2).2).is_building = true
    ∧ (build env1 s m1 f1).1 = some (buildRecord env1 m1 f1)
    ∧ ((build env1 s m1 f1).1.toList
        ++ (build env2 { s with is_building := true } m2 f2).1.toList).length
        = 1 := by
  have hskip : build env2 { s with is_building := true } m2 f2
      = (none, { s with is_building := true }) := by
    simp [build, buildPrologue]
  have hfirst := build_of_not_building env1 s m1 f1 h
  refine ⟨by simp [buildPrologue, h], hskip, ?_, ?_, ?_, ?_, ?_, ?_⟩
  · rw [hskip]
  · rw [hskip]
  · rw [hskip]
  · rw [hskip]
  · rw [hfirst]
  · rw [hfirst, hskip]
    simp

/-- Witness for C1 at a concrete input. -/
theorem single_flight_skip_second_call_witness :
    initialState.is_building = false
    ∧ build envFailSilent { initialState with is_building := true }
        "release" none = (none, { initialState with is_building := true }) :=
  ⟨rfl, (single_flight_skip_second_call envOkWarn envFailSilent initialState
    "release" "release" none none rfl).2.1⟩

/-! ## C8: configuration loading -/

/-- Counterexample to C8 as stated: a malformed configuration file does not
fall back to the defaults; `load_config` propagates the decoding error
(the Python code catches only `FileNotFoundError`, lines 97-104). -/
theorem load_config_malformed_raises :
    load_config (.malformed "JSONDecodeError") = .error "JSONDecodeError"
    ∧ load_config (.malformed "JSONDecodeError")
        ≠ .ok get_default_config := by
  refine ⟨rfl, ?_⟩
  intro hc
  exact Except.noConfusion hc

/-- C8, amended.  Only a missing configuration file is recovered by falling
back to the built-in defaults; an unreadable or malformed file propagates
the underlying exception to the caller, and a valid file is returned
as-is. -/
theorem load_config_missing_defaults :
    load_config .missing = .ok get_default_config
    ∧ (∀ e, load_config (.unreadable e) = .error e)
    ∧ (∀ e, load_config (.malformed e) = .error e)
    ∧ (∀ c, load_config (.valid c) = .ok c) :=
  ⟨rfl, fun _ => rfl, fun _ => rfl, fun _ => rfl⟩

/-! ## C6: the empty-digest sentinel -/

/-- Counterexample to C6 as stated: on a path whose open raises a
`PermissionError`, `calculate_file_hash` does not return the empty-digest
sentinel; it propagates the error (the Python code catches only
`FileNotFoundError`, lines 141-147). -/
theorem hash_permission_error_raises :
    calculate_file_hash hw fsNoPerm "a.cpp" = .error "PermissionError"
    ∧ calculate_file_hash hw fsNoPerm "a.cpp" ≠ .ok "" := by
  refine ⟨rfl, ?_⟩
  intro hc
  exact Except.noConfusion hc

/-- C6, amended.  A missing (deleted) file yields the empty-digest sentinel
rather than raising; a permission error is not caught and propagates.  For
an existing readable file the digest is a function of the file's bytes only,
and (because an MD5 hex digest has 32 characters) is never the empty string,
so the sentinel is returned exactly for missing files. -/
theorem hash_missing_sentinel (hash : Bytes → String) (fs : FileSystem)
    (p : String) (hmd5 : Md5Spec hash) :
    (fs p = .notFound → calculate_file_hash hash fs p = .ok "")
    ∧ (∀ content, fs p = .ok content →
        calculate_file_hash hash fs p = .ok (hash content)
        ∧ hash content ≠ "")
    ∧ (calculate_file_hash hash fs p = .ok "" → fs p = .notFound) := by
  refine ⟨?_, ?_, ?_⟩
  · intro h
    simp [calculate_file_hash, h]
  · intro content h
    refine ⟨by simp [calculate_file_hash, h], ?_⟩
    intro he
    have hl := hmd5 content
    rw [he] at hl
    simp at hl
  · intro h
    cases hfs : fs p with
    | ok content =>
      rw [calculate_file_hash] at h
      rw [hfs] at h
      have : hash content = "" := by
        simpa using h
      have hl := hmd5 content
      rw [this] at hl
      simp at hl
    | notFound => rfl
    | permissionDenied =>
      rw [calculate_file_hash] at h
      rw [hfs] at h
      exact Except.noConfusion h

/-- Witness for C6 at a concrete input. -/
theorem hash_missing_sentinel_witness :
    Md5Spec hw ∧ calculate_file_hash hw fsMissing "a.cpp" = .ok "" := by
  have hm : Md5Spec hw := fun _ => rfl
  exact ⟨hm, (hash_missing_sentinel hw fsMissing "a.cpp" hm).1 rfl⟩

/-! ## C5: a never-before-seen path -/

/-- Counterexample to C5 as stated: a path never before seen whose file is
missing on disk is reported unchanged, because the fresh digest is the
sentinel `""`, which equals the default `""` that `dict.get` returns for an
unknown path (lines 149-157). -/
theorem never_seen_missing_file_reports_unchanged :
    dictGet initialState.file_hashes "a.cpp" "" = ""
    ∧ has_file_changed hw fsMissing initialState "a.cpp"
        = .ok (false, initialState) := ⟨rfl, rfl⟩

/-- C5, amended.  A path never before seen (no cached digest) is reported
changed exactly when its file can be opened: an openable file hashes to a
non-empty digest, which differs from the default `""`, so the first call
returns true and caches the digest; a missing file hashes to the sentinel
`""`, equal to the default, so the first call returns false. -/
theorem never_seen_changed_iff_openable (hash : Bytes → String)
    (fs : FileSystem) (s : MonitorState) (p : String)
    (hmd5 : Md5Spec hash) (hnew : dictGet s.file_hashes p "" = "") :
    (∀ content, fs p = .ok content →
      has_file_changed hash fs s p
        = .ok (true,
            { s with file_hashes := dictSet s.file_hashes p (hash content) }))
    ∧ (fs p = .notFound → has_file_changed hash fs s p = .ok (false, s)) := by
  constructor
  · intro content h
    have hne : hash content ≠ "" := by
      intro he
      have hl := hmd5 content
      rw [he] at hl
      simp at hl
    rw [has_file_changed, calculate_file_hash, h]
    simp [hnew, hne]
  · intro h
    rw [has_file_changed, calculate_file_hash, h]
    simp [hnew]

/-- Witness for C5 at a concrete input. -/
theorem never_seen_changed_iff_openable_witness :
    Md5Spec hw
    ∧ dictGet initialState.file_hashes "a.cpp" "" = ""
    ∧ has_file_changed hw fsEmptyFile initialState "a.cpp"
        = .ok (true,
            { initialState with
              file_hashes := dictSet initialState.file_hashes "a.cpp"
                (hw []) }) := by
  have hm : Md5Spec hw := fun _ => rfl
  exact ⟨hm, rfl,
    (never_seen_changed_iff_openable hw fsEmptyFile initialState "a.cpp"
      hm rfl).1 [] rfl⟩

/-! ## C4: two consecutive calls -/

/-- Counterexample to C4 as stated: on a path whose cached digest already
matches the file's current contents, the first of two consecutive calls
returns false, not true. -/
theorem changed_twice_first_call_not_always_true :
    (has_file_changed hw fsEmptyFile sTracked "a.cpp").map (fun r => r.1)
      = .ok false := by rfl

/-- C4, amended.  Whenever a call to `has_file_changed` returns (rather than
raising), a second consecutive call with no intervening modification returns
false on the settled state: the first call returns true exactly when the
fresh digest differs from the cached one (not unconditionally), and it
settles the cache so the second call compares equal. -/
theorem changed_second_call_false (hash : Bytes → String) (fs : FileSystem)
    (s : MonitorState) (p : String) (b : Bool) (s' : MonitorState)
    (h1 : has_file_changed hash fs s p = .ok (b, s')) :
    has_file_changed hash fs s' p = .ok (false, s') := by
  rw [has_file_changed] at h1 ⊢
  cases hfs : calculate_file_hash hash fs p with
  | error e =>
    rw [hfs] at h1
    exact Except.noConfusion h1
  | ok cur =>
    rw [hfs] at h1
    dsimp only at h1 ⊢
    by_cases hne : cur ≠ dictGet s.file_hashes p ""
    · rw [if_pos hne] at h1
      have hs' : s' = { s with file_hashes := dictSet s.file_hashes p cur } ∧
          b = true := by
        have h2 := h1
        simp only [Except.ok.injEq, Prod.mk.injEq] at h2
        exact ⟨h2.2.symm, h2.1.symm⟩
      rw [hs'.1]
      simp [dictGet_dictSet_self]
    · rw [if_neg hne] at h1
      have hcur : cur = dictGet s.file_hashes p "" := not_not.mp hne
      have hs' : s' = s ∧ b = false := by
        have h2 := h1
        simp only [Except.ok.injEq, Prod.mk.injEq] at h2
        exact ⟨h2.2.symm, h2.1.symm⟩
      rw [hs'.1]
      simp [hcur]

/-- Witness for C4 at a concrete input: a fresh monitor sees an existing
empty file as changed, and the immediately following call returns false. -/
theorem changed_second_call_false_witness :
    has_file_changed hw fsEmptyFile initialState "a.cpp"
      = .ok (true,
          { initialState with file_hashes := [("a.cpp", hw [])] })
    ∧ has_file_changed hw fsEmptyFile
        { initialState with file_hashes := [("a.cpp", hw [])] } "a.cpp"
      = .ok (false,
          { initialState with file_hashes := [("a.cpp", hw [])] }) := by
  refine ⟨by rfl, ?_⟩
  exact changed_second_call_false hw fsEmptyFile initialState "a.cpp" true
    { initialState with file_hashes := [("a.cpp", hw [])] } (by rfl)

/-! ## Lemmas about the produced record -/

theorem attachWarnings_cases (so : String) (b : BuildStats) :
    attachWarnings so b = b
    ∨ attachWarnings so b
        = { b with warnings := some ((pySplitLines so).filter containsWarning) } := by
  unfold attachWarnings
  by_cases h : so ≠ ""
  · rw [if_pos h]
    dsimp only
    by_cases h2 : (pySplitLines so).filter containsWarning ≠ []
    · rw [if_pos h2]
      right
      rfl
    · rw [if_neg h2]
      left
      rfl
  · rw [if_neg h]
    left
    rfl

theorem attachWarnings_success (so : String) (b : BuildStats) :
    (attachWarnings so b).success = b.success := by
  rcases attachWarnings_cases so b with h | h <;> rw [h]

theorem attachWarnings_error_message (so : String) (b : BuildStats) :
    (attachWarnings so b).error_message = b.error_message := by
  rcases attachWarnings_cases so b with h | h <;> rw [h]

theorem attachWarnings_start_time (so : String) (b : BuildStats) :
    (attachWarnings so b).start_time = b.start_time := by
  rcases attachWarnings_cases so b with h | h <;> rw [h]

theorem attachWarnings_warnings (so : String) (b : BuildStats) :
    (attachWarnings so b).warnings
      = if (pySplitLines so).filter containsWarning = [] then b.warnings
        else some ((pySplitLines so).filter containsWarning) := by
  by_cases h : so = ""
  · subst h
    have hws : (pySplitLines "").filter containsWarning = [] := by decide
    simp [attachWarnings, hws]
  · by_cases h2 : (pySplitLines so).filter containsWarning = []
    · simp [attachWarnings, h, h2]
    · simp [attachWarnings, h, h2]

theorem buildRecord_end_time (env : BuildEnv) (mode : String)
    (f : Option (List String)) :
    (buildRecord env mode f).end_time = env.endTime := rfl

theorem buildRecord_start_time (env : BuildEnv) (mode : String)
    (f : Option (List String)) :
    (buildRecord env mode f).start_time = env.startTime := by
  unfold buildRecord
  dsimp only
  cases env.emccAvailable with
  | false => rfl
  | true =>
    cases env.runOutcome with
    | raised msg => rfl
    | completed rc stdout stderr =>
      simp only [reduceIte]
      rw [attachWarnings_start_time]
      by_cases hrc : rc = 0
      · rw [if_pos hrc]
      · rw [if_neg hrc]

theorem buildRecord_success_no_error (env : BuildEnv) (mode : String)
    (f : Option (List String)) :
    (buildRecord env mode f).success = true →
    (buildRecord env mode f).error_message = "" := by
  unfold buildRecord
  dsimp only
  cases env.emccAvailable with
  | false => intro hc; simp at hc
  | true =>
    cases env.runOutcome with
    | raised msg => intro hc; simp at hc
    | completed rc stdout stderr =>
      intro hc
      simp only [reduceIte] at hc ⊢
      rw [attachWarnings_success] at hc
      rw [attachWarnings_error_message]
      by_cases hrc : rc = 0
      · rw [if_pos hrc]
      · rw [if_neg hrc] at hc
        simp at hc

theorem buildRecord_unavailable (env : BuildEnv) (mode : String)
    (f : Option (List String)) (h : env.emccAvailable = false) :
    (buildRecord env mode f).success = false
    ∧ (buildRecord env mode f).error_message = "Emscripten not available" := by
  unfold buildRecord
  rw [h]
  exact ⟨rfl, rfl⟩

theorem buildRecord_raised (env : BuildEnv) (mode : String)
    (f : Option (List String)) (msg : String)
    (h1 : env.emccAvailable = true) (h2 : env.runOutcome = .raised msg) :
    (buildRecord env mode f).success = false
    ∧ (buildRecord env mode f).error_message = msg := by
  unfold buildRecord
  rw [h1, h2]
  exact ⟨rfl, rfl⟩

theorem buildRecord_failed_nonzero (env : BuildEnv) (mode : String)
    (f : Option (List String)) (rc : Int) (stdout stderr : String)
    (h1 : env.emccAvailable = true)
    (h2 : env.runOutcome = .completed rc stdout stderr) (h3 : rc ≠ 0) :
    (buildRecord env mode f).success = false
    ∧ (buildRecord env mode f).error_message = stderr := by
  unfold buildRecord
  rw [h1, h2]
  dsimp only
  simp only [reduceIte]
  constructor
  · rw [attachWarnings_success, if_neg h3]
  · rw [attachWarnings_error_message, if_neg h3]

theorem buildRecord_warnings_completed (env : BuildEnv) (mode : String)
    (f : Option (List String)) (rc : Int) (stdout stderr : String)
    (h1 : env.emccAvailable = true)
    (h2 : env.runOutcome = .completed rc stdout stderr) :
    (buildRecord env mode f).warnings
      = if (pySplitLines stdout).filter containsWarning = [] then none
        else some ((pySplitLines stdout).filter containsWarning) := by
  unfold buildRecord
  rw [h1, h2]
  dsimp only
  simp only [reduceIte]
  rw [attachWarnings_warnings]
  by_cases hws : (pySplitLines stdout).filter containsWarning = []
  · rw [if_pos hws, if_pos hws]
    by_cases hrc : rc = 0
    · rw [if_pos hrc]
    · rw [if_neg hrc]
  · rw [if_neg hws, if_neg hws]

theorem mem_dequeAppend_self (maxlen : Nat) (hm : 1 ≤ maxlen)
    (xs : List BuildStats) (x : BuildStats) :
    x ∈ dequeAppend maxlen xs x := by
  unfold dequeAppend
  dsimp only
  split
  · have hle : (xs ++ [x]).length - maxlen ≤ xs.length := by
      simp only [List.length_append, List.length_singleton]
      omega
    rw [List.drop_append_of_le_length hle]
    simp
  · simp

/-! ## C2: the finally block always runs -/

/-- C2.  Every non-skipped call to `build` — whatever the compiler does
(success, non-zero exit, or an exception in any step) and whatever the two
persistence writes do — returns a record whose `end_time` is finalized to
the clock reading of the `finally` block, releases `is_building`, updates
the running statistics exactly once, appends the record to the bounded
history, and attempts to persist both files: a successful write stores the
current cache/history, a failing write is swallowed (the call still returns
the record and the previously persisted file is untouched). -/
theorem build_always_finalizes_and_persists (env : BuildEnv)
    (s : MonitorState) (mode : String) (f : Option (List String))
    (h : s.is_building = false) :
    ∃ b : BuildStats,
      (build env s mode f).1 = some b
      ∧ b.end_time = env.endTime
      ∧ ((build env s mode f).2).is_building = false
      ∧ ((build env s mode f).2).stats = update_stats env.now s.stats b
      ∧ ((build env s mode f).2).build_history
          = dequeAppend 100 s.build_history b
      ∧ ((build env s mode f).2).file_hashes = s.file_hashes
      ∧ (env.historyWriteOk = true →
          ((build env s mode f).2).historyFile
            = some (dequeAppend 100 s.build_history b))
      ∧ (env.historyWriteOk = false →
          ((build env s mode f).2).historyFile = s.historyFile)
      ∧ (env.cacheWriteOk = true →
          ((build env s mode f).2).cacheFile = some s.file_hashes)
      ∧ (env.cacheWriteOk = false →
          ((build env s mode f).2).cacheFile = s.cacheFile) := by
  have hb := build_of_not_building env s mode f h
  refine ⟨buildRecord env mode f, ?_, buildRecord_end_time env mode f,
    ?_, ?_, ?_, ?_, ?_, ?_, ?_, ?_⟩
  · rw [hb]
  · rw [hb, buildBody_snd]
    simp [save_cache_is_building, save_build_history_is_building]
  · rw [hb, buildBody_snd]
    simp [save_cache_stats, save_build_history_stats]
  · rw [hb, buildBody_snd]
    simp [save_cache_build_history, save_build_history_build_history]
  · rw [hb, buildBody_snd]
    simp [save_cache_file_hashes, save_build_history_file_hashes]
  · intro hwk
    rw [hb, buildBody_snd]
    simp [save_cache_historyFile, save_build_history, hwk]
  · intro hwk
    rw [hb, buildBody_snd]
    simp [save_cache_historyFile, save_build_history, hwk]
  · intro hwk
    rw [hb, buildBody_snd]
    simp [save_cache, save_build_history_file_hashes, hwk]
  · intro hwk
    rw [hb, buildBody_snd]
    simp [save_cache, save_build_history_cacheFile, hwk]

/-- Witness for C2 at a concrete input. -/
theorem build_always_finalizes_and_persists_witness :
    initialState.is_building = false
    ∧ ∃ b : BuildStats,
        (build envFailSilent initialState "release" none).1 = some b := by
  refine ⟨rfl, ?_⟩
  obtain ⟨b, hb, _⟩ :=
    build_always_finalizes_and_persists envFailSilent initialState
      "release" none rfl
  exact ⟨b, hb⟩

/-! ## C7: record invariants -/

/-- Counterexample to C7 as stated: when the toolchain is available and the
compiler exits with a non-zero code but an empty stderr, the record has
`success = false` and an empty `error_message` (the stderr is stored
verbatim, lines 249-253) — so a failed record need not carry a non-empty
error field. -/
theorem failed_build_empty_stderr_empty_error :
    (build envFailSilent initialState "release" none).1.map
      (fun b => (b.success, b.error_message)) = some (false, "") := by
  decide

/-- C7, amended.  Every record returned by a non-skipped build call (under a
non-decreasing wall clock) satisfies `end_time ≥ start_time`; a successful
record carries no error; when the toolchain probe fails, the error field is
the `RuntimeError` message; when a step raises, the error field is the
exception's message; and on a non-zero exit code, the error field holds the
captured stderr verbatim — which is empty exactly when the compiler printed
nothing to stderr, so `success = false` does not by itself force a non-empty
error message. -/
theorem build_record_time_and_error_fields (env : BuildEnv)
    (s : MonitorState) (mode : String) (f : Option (List String))
    (h : s.is_building = false) (hclock : env.startTime ≤ env.endTime) :
    ∃ b : BuildStats,
      (build env s mode f).1 = some b
      ∧ b.start_time ≤ b.end_time
      ∧ (b.success = true → b.error_message = "")
      ∧ (env.emccAvailable = false →
          b.success = false ∧ b.error_message = "Emscripten not available")
      ∧ (∀ msg, env.emccAvailable = true → env.runOutcome = .raised msg →
          b.success = false ∧ b.error_message = msg)
      ∧ (∀ rc stdout stderr, env.emccAvailable = true →
          env.runOutcome = .completed rc stdout stderr → rc ≠ 0 →
          b.success = false ∧ b.error_message = stderr) := by
  refine ⟨buildRecord env mode f, ?_, ?_, ?_, ?_, ?_, ?_⟩
  · rw [build_of_not_building env s mode f h]
  · rw [buildRecord_start_time, buildRecord_end_time]
    exact hclock
  · exact buildRecord_success_no_error env mode f
  · exact buildRecord_unavailable env mode f
  · exact fun msg h1 h2 => buildRecord_raised env mode f msg h1 h2
  · exact fun rc stdout stderr h1 h2 h3 =>
      buildRecord_failed_nonzero env mode f rc stdout stderr h1 h2 h3

/-- Witness for C7 at a concrete input. -/
theorem build_record_time_and_error_fields_witness :
    initialState.is_building = false
    ∧ envOkWarn.startTime ≤ envOkWarn.endTime
    ∧ ∃ b : BuildStats,
        (build envOkWarn initialState "release" none).1 = some b
        ∧ b.start_time ≤ b.end_time := by
  have hclock : envOkWarn.startTime ≤ envOkWarn.endTime := by
    norm_num [envOkWarn]
  refine ⟨rfl, hclock, ?_⟩
  obtain ⟨b, hb, ht, _⟩ :=
    build_record_time_and_error_fields envOkWarn initialState "release" none
      rfl hclock
  exact ⟨b, hb, ht⟩

/-! ## C10: warnings collection -/

/-- C10.  For every non-skipped build in which the compiler runs (whatever
its exit code), the record's warnings are exactly the stdout lines
containing a case-insensitive warning marker when at least one such line
exists, and `None` otherwise (also when stdout is empty) — never an empty
list; the record, with that warnings field, is appended to the bounded
history, which is what a successful history write persists. -/
theorem warnings_collected_regardless_of_exit (env : BuildEnv)
    (s : MonitorState) (mode : String) (f : Option (List String))
    (rc : Int) (stdout stderr : String)
    (h : s.is_building = false) (hemcc : env.emccAvailable = true)
    (hrun : env.runOutcome = .completed rc stdout stderr) :
    ∃ b : BuildStats,
      (build env s mode f).1 = some b
      ∧ b.warnings
          = (if (pySplitLines stdout).filter containsWarning = [] then none
             else some ((pySplitLines stdout).filter containsWarning))
      ∧ b.warnings ≠ some []
      ∧ b ∈ ((build env s mode f).2).build_history
      ∧ (env.historyWriteOk = true →
          ((build env s mode f).2).historyFile
            = some (((build env s mode f).2).build_history)) := by
  have hb := build_of_not_building env s mode f h
  have hwzero :=
    buildRecord_warnings_completed env mode f rc stdout stderr hemcc hrun
  refine ⟨buildRecord env mode f, ?_, hwzero, ?_, ?_, ?_⟩
  · rw [hb]
  · rw [hwzero]
    by_cases hws : (pySplitLines stdout).filter containsWarning = []
    · rw [if_pos hws]
      exact Option.noConfusion
    · rw [if_neg hws]
      intro hc
      exact hws (Option.some.inj hc)
  · rw [hb, buildBody_snd]
    simp only [save_cache_build_history, save_build_history_build_history]
    exact mem_dequeAppend_self 100 (by norm_num) _ _
  · intro hwk
    rw [hb, buildBody_snd]
    simp [save_cache_historyFile, save_cache_build_history,
      save_build_history, hwk]

/-- Witness for C10 at a concrete input: a successful build whose stdout
holds one warning line. -/
theorem warnings_collected_regardless_of_exit_witness :
    initialState.is_building = false
    ∧ envOkWarn.emccAvailable = true
    ∧ envOkWarn.runOutcome
        = .completed 0 "Warning: unused variable" ""
    ∧ ∃ b : BuildStats,
        (build envOkWarn initialState "release" none).1 = some b
        ∧ b.warnings
            = (if (pySplitLines "Warning: unused variable").filter
                  containsWarning = [] then none
               else some ((pySplitLines "Warning: unused variable").filter
                  containsWarning)) := by
  refine ⟨rfl, rfl, rfl, ?_⟩
  obtain ⟨b, hb, hw2, _⟩ :=
    warnings_collected_regardless_of_exit envOkWarn initialState "release"
      none 0 "Warning: unused variable" "" rfl rfl rfl
  exact ⟨b, hb, hw2⟩

/-! ## C3: the running statistics invariant -/

theorem buildBody_not_building (env : BuildEnv) (s : MonitorState)
    (mode : String) (f : Option (List String)) :
    ((buildBody env s mode f).2).is_building = false := by
  rw [buildBody_snd]
  simp [save_cache_is_building, save_build_history_is_building]

theorem buildBody_stats_val (env : BuildEnv) (s : MonitorState)
    (mode : String) (f : Option (List String)) :
    ((buildBody env s mode f).2).stats
      = update_stats env.now s.stats (buildRecord env mode f) := by
  rw [buildBody_snd]
  simp [save_cache_stats, save_build_history_stats]

theorem runBuilds_cons_of_not_building (i : BuildInput)
    (rest : List BuildInput) (s : MonitorState)
    (h : s.is_building = false) :
    runBuilds (i :: rest) s
      = ((buildRecord i.env i.mode i.changed_files)
           :: (runBuilds rest ((buildBody i.env { s with is_building := true }
               i.mode i.changed_files).2)).1,
         (runBuilds rest ((buildBody i.env { s with is_building := true }
             i.mode i.changed_files).2)).2) := by
  simp only [runBuilds]
  rw [build_of_not_building i.env s i.mode i.changed_files h]
  rfl

theorem length_filter_success_add (l : List BuildStats) :
    (l.filter (fun b => b.success)).length
      + (l.filter (fun b => !b.success)).length = l.length := by
  induction l with
  | nil => rfl
  | cons x xs ih =>
    cases hx : x.success <;> simp [List.filter_cons, hx] <;> omega

theorem runBuilds_spec (inputs : List BuildInput) (s : MonitorState)
    (h : s.is_building = false) :
    ((runBuilds inputs s).2).is_building = false
    ∧ (runBuilds inputs s).1.length = inputs.length
    ∧ ((runBuilds inputs s).2).stats.total_builds
        = s.stats.total_builds + (runBuilds inputs s).1.length
    ∧ ((runBuilds inputs s).2).stats.successful_builds
        = s.stats.successful_builds
          + ((runBuilds inputs s).1.filter (fun b => b.success)).length
    ∧ ((runBuilds inputs s).2).stats.failed_builds
        = s.stats.failed_builds
          + ((runBuilds inputs s).1.filter (fun b => !b.success)).length := by
  induction inputs generalizing s with
  | nil => simp [runBuilds, h]
  | cons i rest ih =>
    rw [runBuilds_cons_of_not_building i rest s h]
    set s2 := (buildBody i.env { s with is_building := true }
      i.mode i.changed_files).2 with hs2
    have hb2 : s2.is_building = false := by
      rw [hs2]
      exact buildBody_not_building _ _ _ _
    have hstats : s2.stats
        = update_stats i.env.now s.stats
            (buildRecord i.env i.mode i.changed_files) := by
      rw [hs2]
      exact buildBody_stats_val _ _ _ _
    obtain ⟨ih1, ih2, ih3, ih4, ih5⟩ := ih s2 hb2
    have htot : s2.stats.total_builds = s.stats.total_builds + 1 := by
      rw [hstats]
      rfl
    have hsucc : s2.stats.successful_builds
        = s.stats.successful_builds
          + (if (buildRecord i.env i.mode i.changed_files).success
             then 1 else 0) := by
      rw [hstats]
      rfl
    have hfail : s2.stats.failed_builds
        = s.stats.failed_builds
          + (if (buildRecord i.env i.mode i.changed_files).success
             then 0 else 1) := by
      rw [hstats]
      rfl
    refine ⟨ih1, by simp [ih2], ?_, ?_, ?_⟩
    · rw [ih3, htot]
      simp
      omega
    · rw [ih4, hsucc]
      cases hbs : (buildRecord i.env i.mode i.changed_files).success <;>
        · simp [List.filter_cons, hbs]
          try omega
    · rw [ih5, hfail]
      cases hbs : (buildRecord i.env i.mode i.changed_files).success <;>
        · simp [List.filter_cons, hbs]
          try omega

theorem runBuilds_append (xs ys : List BuildInput) (s : MonitorState) :
    runBuilds (xs ++ ys) s
      = ((runBuilds xs s).1 ++ (runBuilds ys ((runBuilds xs s).2)).1,
         (runBuilds ys ((runBuilds xs s).2)).2) := by
  induction xs generalizing s with
  | nil => simp [runBuilds]
  | cons i xs ih =>
    simp only [List.cons_append, runBuilds, List.append_eq]
    rw [ih]
    simp [List.append_assoc]

theorem build_stats_le (env : BuildEnv) (s : MonitorState) (mode : String)
    (f : Option (List String)) :
    s.stats.total_builds ≤ ((build env s mode f).2).stats.total_builds
    ∧ s.stats.successful_builds
        ≤ ((build env s mode f).2).stats.successful_builds
    ∧ s.stats.failed_builds
        ≤ ((build env s mode f).2).stats.failed_builds := by
  cases hb : s.is_building with
  | true => simp [build, buildPrologue, hb]
  | false =>
    rw [build_of_not_building env s mode f hb]
    have hstats := buildBody_stats_val env { s with is_building := true }
      mode f
    rw [hstats]
    exact ⟨Nat.le_add_right _ _, Nat.le_add_right _ _, Nat.le_add_right _ _⟩

theorem runBuilds_stats_le (inputs : List BuildInput) (s : MonitorState) :
    s.stats.total_builds ≤ ((runBuilds inputs s).2).stats.total_builds
    ∧ s.stats.successful_builds
        ≤ ((runBuilds inputs s).2).stats.successful_builds
    ∧ s.stats.failed_builds
        ≤ ((runBuilds inputs s).2).stats.failed_builds := by
  induction inputs generalizing s with
  | nil => simp [runBuilds]
  | cons i rest ih =>
    have h1 := build_stats_le i.env s i.mode i.changed_files
    have h2 := ih ((build i.env s i.mode i.changed_files).2)
    simp only [runBuilds]
    exact ⟨le_trans h1.1 h2.1, le_trans h1.2.1 h2.2.1,
      le_trans h1.2.2 h2.2.2⟩

/-- C3.  Starting from a fresh monitor, after any sequence of build calls
(all finalized, since a sequential caller sees `is_building = false` each
time), the counters satisfy `successful + failed = total`, `total` equals
both the number of calls and the number of records produced, `successful`
counts exactly the successful records (so `failed` counts the rest), and
along any prefix of the sequence each counter is monotonically
non-decreasing. -/
theorem running_stats_invariant (inputs : List BuildInput) :
    (((runBuilds inputs initialState).2).stats.successful_builds
        + ((runBuilds inputs initialState).2).stats.failed_builds
      = ((runBuilds inputs initialState).2).stats.total_builds)
    ∧ ((runBuilds inputs initialState).2).stats.total_builds = inputs.length
    ∧ ((runBuilds inputs initialState).2).stats.total_builds
        = (runBuilds inputs initialState).1.length
    ∧ ((runBuilds inputs initialState).2).stats.successful_builds
        = ((runBuilds inputs initialState).1.filter
            (fun b => b.success)).length
    ∧ ((runBuilds inputs initialState).2).stats.failed_builds
        = ((runBuilds inputs initialState).1.filter
            (fun b => !b.success)).length
    ∧ (∀ pre post : List BuildInput,
        ((runBuilds pre initialState).2).stats.total_builds
          ≤ ((runBuilds (pre ++ post) initialState).2).stats.total_builds
        ∧ ((runBuilds pre initialState).2).stats.successful_builds
          ≤ ((runBuilds (pre ++ post) initialState).2).stats.successful_builds
        ∧ ((runBuilds pre initialState).2).stats.failed_builds
          ≤ ((runBuilds (pre ++ post) initialState).2).stats.failed_builds)
    := by
  obtain ⟨h1, h2, h3, h4, h5⟩ := runBuilds_spec inputs initialState rfl
  have hzero : initialState.stats.total_builds = 0 ∧
      initialState.stats.successful_builds = 0 ∧
      initialState.stats.failed_builds = 0 := ⟨rfl, rfl, rfl⟩
  refine ⟨?_, ?_, ?_, ?_, ?_, ?_⟩
  · rw [h3, h4, h5, hzero.1, hzero.2.1, hzero.2.2]
    simp [length_filter_success_add]
  · rw [h3, hzero.1, h2]
    simp
  · rw [h3, hzero.1]
    simp
  · rw [h4, hzero.2.1]
    simp
  · rw [h5, hzero.2.2]
    simp
  · intro pre post
    rw [runBuilds_append]
    exact runBuilds_stats_le post ((runBuilds pre initialState).2)

/-! ## C9: event-driven debounce -/

theorem setAdd_mem_self (xs : List String) (x : String) : x ∈ setAdd xs x := by
  unfold setAdd
  by_cases hx : x ∈ xs
  · rw [if_pos hx]
    exact hx
  · rw [if_neg hx]
    simp

theorem setAdd_mem_of_mem (xs : List String) (x y : String) (h : y ∈ xs) :
    y ∈ setAdd xs x := by
  unfold setAdd
  by_cases hx : x ∈ xs
  · rw [if_pos hx]
    exact h
  · rw [if_neg hx]
    simp [h]

theorem setAdd_ne_nil (xs : List String) (x : String) : setAdd xs x ≠ [] := by
  unfold setAdd
  by_cases hx : x ∈ xs
  · rw [if_pos hx]
    exact List.ne_nil_of_mem hx
  · rw [if_neg hx]
    simp

theorem foldl_setAdd_mem (es : List FsEvent) (acc : List String)
    (y : String) (h : y ∈ acc) :
    y ∈ es.foldl (fun a ev => setAdd a ev.src_path) acc := by
  induction es generalizing acc with
  | nil => exact h
  | cons e es ih =>
    exact ih _ (setAdd_mem_of_mem _ _ _ h)

theorem foldl_setAdd_mem_of_event (es : List FsEvent) (acc : List String)
    (e : FsEvent) (he : e ∈ es) :
    e.src_path ∈ es.foldl (fun a ev => setAdd a ev.src_path) acc := by
  induction es generalizing acc with
  | nil => cases he
  | cons e0 es ih =>
    rcases List.mem_cons.mp he with h | h
    · subst h
      exact foldl_setAdd_mem es (setAdd acc e.src_path) e.src_path
        (setAdd_mem_self acc e.src_path)
    · exact ih _ h

theorem burst_no_flush (W : ℚ) (h : HandlerState) (es : List FsEvent)
    (hq : ∀ e ∈ es, Qualifying e)
    (hb : WithinBurst W h.last_event_time es) :
    processEvents W h es
      = ({ pending_changes := es.foldl (fun acc e => setAdd acc e.src_path)
             h.pending_changes,
           last_event_time := lastTimeOf h.last_event_time es }, []) := by
  induction es generalizing h with
  | nil => simp [processEvents, lastTimeOf]
  | cons e es ih =>
    obtain ⟨hq1, hq2⟩ := hq e (List.mem_cons_self e es)
    obtain ⟨hb1, hb2⟩ := hb
    have hstep : on_modified W h e
        = ({ pending_changes := setAdd h.pending_changes e.src_path,
             last_event_time := e.time }, none) := by
      unfold on_modified
      rw [hq1]
      simp only [reduceIte]
      rw [hq2]
      simp only [reduceIte]
      rw [if_neg (not_lt.mpr hb1)]
      rfl
    have ih' := ih { pending_changes := setAdd h.pending_changes e.src_path,
                     last_event_time := e.time }
      (fun e2 he2 => hq e2 (List.mem_cons_of_mem e he2)) hb2
    simp only [processEvents]
    rw [hstep]
    dsimp only
    rw [ih']
    simp [lastTimeOf]

theorem processEvents_append (W : ℚ) (h : HandlerState)
    (xs ys : List FsEvent) :
    processEvents W h (xs ++ ys)
      = ((processEvents W ((processEvents W h xs).1) ys).1,
         (processEvents W h xs).2
           ++ (processEvents W ((processEvents W h xs).1) ys).2) := by
  induction xs generalizing h with
  | nil => simp [processEvents]
  | cons e xs ih =>
    simp only [List.cons_append, processEvents, List.append_eq]
    rw [ih]
    simp [List.append_assoc]

/-- C9.  Event-driven debounce, over the sequence of timestamped events
processed by `on_modified`: during a burst of qualifying events each within
the debounce window `W` of the previous one, no build call is issued; when
the next qualifying event arrives more than `W` after the burst's last
event, exactly one build call is issued, and it carries every path touched
during the burst (together with the triggering event's path); the pending
set is then cleared. -/
theorem debounce_burst_single_flush (W : ℚ) (h : HandlerState)
    (es : List FsEvent) (t : FsEvent)
    (hq : ∀ e ∈ es, Qualifying e) (hqt : Qualifying t)
    (hb : WithinBurst W h.last_event_time es)
    (ht : W < t.time - lastTimeOf h.last_event_time es) :
    (processEvents W h es).2 = []
    ∧ (processEvents W h (es ++ [t])).2
        = [setAdd (es.foldl (fun acc e => setAdd acc e.src_path)
            h.pending_changes) t.src_path]
    ∧ (processEvents W h (es ++ [t])).2.length = 1
    ∧ (∀ fl ∈ (processEvents W h (es ++ [t])).2,
        t.src_path ∈ fl ∧ ∀ e ∈ es, e.src_path ∈ fl)
    ∧ ((processEvents W h (es ++ [t])).1).pending_changes = [] := by
  have hburst := burst_no_flush W h es hq hb
  have hstep : on_modified W
      { pending_changes := es.foldl (fun acc e => setAdd acc e.src_path)
          h.pending_changes,
        last_event_time := lastTimeOf h.last_event_time es } t
      = ({ pending_changes := [], last_event_time := t.time },
         some (setAdd (es.foldl (fun acc e => setAdd acc e.src_path)
           h.pending_changes) t.src_path)) := by
    unfold on_modified
    rw [hqt.1]
    simp only [reduceIte]
    rw [hqt.2]
    simp only [reduceIte]
    rw [if_pos ht, if_pos (setAdd_ne_nil _ _)]
    rfl
  have hpe := processEvents_append W h es [t]
  rw [hburst] at hpe
  have hsingle : processEvents W
      { pending_changes := es.foldl (fun acc e => setAdd acc e.src_path)
          h.pending_changes,
        last_event_time := lastTimeOf h.last_event_time es } [t]
      = ({ pending_changes := [], last_event_time := t.time },
         [setAdd (es.foldl (fun acc e => setAdd acc e.src_path)
           h.pending_changes) t.src_path]) := by
    simp only [processEvents]
    rw [hstep]
    rfl
  rw [hsingle] at hpe
  refine ⟨by rw [hburst], ?_, ?_, ?_, ?_⟩
  · rw [hpe]
    simp
  · rw [hpe]
    simp
  · intro fl hfl
    rw [hpe] at hfl
    simp only [List.nil_append, List.mem_singleton] at hfl
    subst hfl
    refine ⟨setAdd_mem_self _ _, ?_⟩
    intro e he
    exact setAdd_mem_of_mem _ _ _ (foldl_setAdd_mem_of_event es _ e he)
  · rw [hpe]

/-- A fresh handler state for the C9 witness. -/
def handlerW : HandlerState := { pending_changes := [], last_event_time := 0 }

/-- A two-event burst for the C9 witness. -/
def eventsW : List FsEvent :=
  [{ src_path := "a.cpp", is_directory := false, time := 1 },
   { src_path := "b.hpp", is_directory := false, time := 3/2 }]

/-- A later triggering event for the C9 witness. -/
def triggerW : FsEvent :=
  { src_path := "c.h", is_directory := false, time := 3 }

/-- Witness for C9 at a concrete input: a burst of two source-file events
within a window of 1 second, flushed by a third event 1.5 seconds later. -/
theorem debounce_burst_single_flush_witness :
    (processEvents 1 handlerW eventsW).2 = []
    ∧ (processEvents 1 handlerW (eventsW ++ [triggerW])).2.length = 1 := by
  have hq : ∀ e ∈ eventsW, Qualifying e := by
    intro e he
    simp only [eventsW, List.mem_cons, List.not_mem_nil, or_false] at he
    rcases he with he | he <;> subst he <;> exact ⟨rfl, rfl⟩
  have hqt : Qualifying triggerW := ⟨rfl, rfl⟩
  have hb : WithinBurst 1 handlerW.last_event_time eventsW := by
    refine ⟨?_, ?_, trivial⟩ <;> norm_num [handlerW, eventsW]
  have ht : (1 : ℚ) < triggerW.time
      - lastTimeOf handlerW.last_event_time eventsW := by
    norm_num [handlerW, eventsW, triggerW, lastTimeOf]
  obtain ⟨h1, _, h3, _, _⟩ :=
    debounce_burst_single_flush 1 handlerW eventsW triggerW hq hqt hb ht
  exact ⟨h1, h3⟩

end WasmMonitor
